import Mathlib

/-!
Verification of the Labsense sensor telemetry and fault-recovery loop.

The definitions below are a shallow embedding of the monitoring scripts in
`Labsense_Sensors/`:

* `Labsense.tick` embeds one iteration of the body of `main` in
  `fumehood.py` (lines 310-417): zero-distance fault tracking, zero-light
  fault tracking, validation, MQTT publish and the consecutive-error check.
  Sensor readings, the outcome of a `recover_sensors` call and the outcome
  of a `publish_mqtt` call on that iteration are inputs of the tick;
  the observable actions of the iteration (recovery attempt, reboot,
  message built, publish attempt, sleep, loop exit) are its output.
* `Labsense.run` iterates `tick` over a list of tick inputs, stopping after
  a tick that leaves the loop (the `break` after `reboot_pi`).
* `Labsense.publishGo` / `Labsense.publish_mqtt` embed the retry loop of
  `publish_mqtt` (fumehood.py lines 237-275, water-2taps.py lines 212-242),
  with the per-attempt delivery outcome supplied as an oracle.
* `Labsense.flowRun` / `Labsense.total_volume` embed the pulse-counting
  integrator of `water-2taps.py` (`countPulse`, `gpio_monitoring`,
  `total_volume`): pulse edges and one-second sampling ticks are the events
  of a trace, the counter is read-and-reset at each sampling tick and the
  per-second rates are summed over the window.

Python floats are modelled as rationals, failed reads (`None`) as `Option`.
-/

namespace Labsense

/-- Configuration of the fumehood loop: thresholds
`ZERO_DISTANCE_REBOOT_THRESHOLD`, `ZERO_LIGHT_REINIT_THRESHOLD`,
`max_consecutive_errors`, and the validation bounds `DISTANCE_MIN_MM`,
`DISTANCE_MAX_MM`, `LIGHT_MIN_LUX`, `LIGHT_MAX_LUX`. -/
structure Config where
  distThreshold : ℕ
  lightThreshold : ℕ
  maxErrors : ℕ
  distMin : ℚ
  distMax : ℚ
  lightMin : ℚ
  lightMax : ℚ
deriving DecidableEq, Repr

/-- Default configuration values of fumehood.py (env defaults). -/
def defaultConfig : Config :=
  { distThreshold := 10, lightThreshold := 5, maxErrors := 5,
    distMin := 0, distMax := 4000, lightMin := 0, lightMax := 200000 }

/-- Mutable loop counters of `main`: `consecutive_zero_distance`,
`consecutive_zero_light`, `consecutive_errors`. -/
structure LoopState where
  zeroDist : ℕ
  zeroLight : ℕ
  errors : ℕ
deriving DecidableEq, Repr

/-- The two degenerate-reading fault classes tracked by the loop. -/
inductive Fault where
  | dist
  | light
deriving DecidableEq, Repr

/-- Per-iteration inputs: the two sensor readings (`None` models a failed
read), the outcome `recover_sensors` would return if called on this
iteration, and the outcome `publish_mqtt` would return if called. -/
structure TickInput where
  dist : Option ℚ
  lux : Option ℚ
  recoverOk : Bool
  publishOk : Bool
deriving DecidableEq, Repr

/-- The `sensorReadings.fumehood` object of the outbound MQTT payload. -/
structure Payload where
  distance : ℚ
  light : ℚ
  airflow : ℚ
deriving DecidableEq, Repr

/-- Observable actions of one loop iteration. `recover` records a
`recover_sensors` call and which fault class triggered it; `reboot` records
a `reboot_pi` call; `validated` records that the iteration reached the
validation step; `msg` the payload built (if any); `pubResult` the outcome
of the publish attempt (if one was made); `slept` whether the
measurement-interval sleep at the end of the iteration ran; `broke` whether
the iteration left the loop. -/
structure TickOutput where
  recover : Option Fault
  reboot : Bool
  validated : Bool
  msg : Option Payload
  pubResult : Option Bool
  slept : Bool
  broke : Bool
deriving DecidableEq, Repr

/-- Embedding of `validate_distance` (fumehood.py lines 212-219). -/
def validate_distance (cfg : Config) : Option ℚ → Bool
  | none => false
  | some d => !(d < cfg.distMin || d > cfg.distMax)

/-- Embedding of `validate_light` (fumehood.py lines 222-234). -/
def validate_light (cfg : Config) : Option ℚ → Bool
  | none => false
  | some l => !(l < cfg.lightMin || l > cfg.lightMax)

/-- Embedding of the consecutive-error check (fumehood.py lines 407-414):
when `consecutive_errors` has reached `max_consecutive_errors` it is logged
and reset to 0; nothing else happens. -/
def errCheck (cfg : Config) (s : LoopState) (o : TickOutput) :
    LoopState × TickOutput :=
  if cfg.maxErrors ≤ s.errors then ({ s with errors := 0 }, o) else (s, o)

/-- Embedding of the validate-and-publish part of the iteration
(fumehood.py lines 371-405): if at least one reading is valid, a payload is
built carrying `-1.0` for each invalid metric and a publish is attempted;
`consecutive_errors` is reset on publish success and incremented on publish
failure or when no reading is valid. -/
def publishPhase (cfg : Config) (s : LoopState) (i : TickInput)
    (rec : Option Fault) : LoopState × TickOutput :=
  if validate_distance cfg i.dist || validate_light cfg i.lux then
    errCheck cfg
      { s with errors := if i.publishOk then 0 else s.errors + 1 }
      { recover := rec, reboot := false, validated := true,
        msg := some
          { distance := if validate_distance cfg i.dist then i.dist.getD 0 else -1,
            light := if validate_light cfg i.lux then i.lux.getD 0 else -1,
            airflow := 0 },
        pubResult := some i.publishOk, slept := true, broke := false }
  else
    errCheck cfg { s with errors := s.errors + 1 }
      { recover := rec, reboot := false, validated := true, msg := none,
        pubResult := none, slept := true, broke := false }

/-- Embedding of the zero-light branch (fumehood.py lines 344-360): on a
`0.0` lux reading the counter is incremented; at the threshold
`recover_sensors` is called — on success the light counter and the error
counter are reset and the iteration is abandoned (`continue`), on failure
an error is logged and the iteration falls through to validation with the
counter left at its incremented value. A non-zero reading resets the
counter. -/
def lightPhase (cfg : Config) (s : LoopState) (i : TickInput) :
    LoopState × TickOutput :=
  if i.lux = some 0 then
    if cfg.lightThreshold ≤ s.zeroLight + 1 then
      if i.recoverOk then
        ({ s with zeroLight := 0, errors := 0 },
         { recover := some Fault.light, reboot := false, validated := false,
           msg := none, pubResult := none, slept := false, broke := false })
      else
        publishPhase cfg { s with zeroLight := s.zeroLight + 1 } i
          (some Fault.light)
    else
      publishPhase cfg { s with zeroLight := s.zeroLight + 1 } i none
  else
    publishPhase cfg { s with zeroLight := 0 } i none

/-- Embedding of one iteration of the `main` loop body of fumehood.py
(lines 310-417). The zero-distance branch (lines 323-341) runs first: on a
`0.0` mm reading the counter is incremented; at the threshold
`recover_sensors` is called — on success the distance counter and the error
counter are reset and the iteration is abandoned (`continue`), on failure
`reboot_pi` runs and the loop exits (`break`). Otherwise control falls
through to the zero-light branch and then to validation and publish. -/
def tick (cfg : Config) (s : LoopState) (i : TickInput) :
    LoopState × TickOutput :=
  if i.dist = some 0 then
    if cfg.distThreshold ≤ s.zeroDist + 1 then
      if i.recoverOk then
        ({ s with zeroDist := 0, errors := 0 },
         { recover := some Fault.dist, reboot := false, validated := false,
           msg := none, pubResult := none, slept := false, broke := false })
      else
        ({ s with zeroDist := s.zeroDist + 1 },
         { recover := some Fault.dist, reboot := true, validated := false,
           msg := none, pubResult := none, slept := false, broke := true })
    else
      lightPhase cfg { s with zeroDist := s.zeroDist + 1 } i
  else
    lightPhase cfg { s with zeroDist := 0 } i

/-- Iterates `tick` over a list of per-iteration inputs, stopping after an
iteration that leaves the loop. Returns the final counters and the list of
iteration outputs in order. -/
def run (cfg : Config) : LoopState → List TickInput → LoopState × List TickOutput
  | s, [] => (s, [])
  | s, i :: rest =>
    let p := tick cfg s i
    if p.2.broke then (p.1, [p.2])
    else
      let q := run cfg p.1 rest
      (q.1, p.2 :: q.2)

/-- Result of one `publish_mqtt` call: whether a delivery succeeded, the
attempt numbers actually made (in order), and the list of inter-attempt
sleep durations (seconds) executed. -/
structure PublishTrace where
  ok : Bool
  attempts : List ℕ
  sleeps : List ℕ
deriving DecidableEq, Repr

/-- Embedding of the body of the retry loop of `publish_mqtt`
(fumehood.py lines 239-275): iterates over the remaining attempt numbers;
a successful delivery returns immediately, a failed attempt is followed by
a 2-second sleep unless it was the last attempt. `outcomes k` is whether
the delivery on attempt `k` would succeed. -/
def publishGo (outcomes : ℕ → Bool) (retry_count : ℕ) :
    List ℕ → PublishTrace
  | [] => { ok := false, attempts := [], sleeps := [] }
  | a :: rest =>
    if outcomes a then { ok := true, attempts := [a], sleeps := [] }
    else
      let r := publishGo outcomes retry_count rest
      { ok := r.ok, attempts := a :: r.attempts,
        sleeps := (if a < retry_count then [2] else []) ++ r.sleeps }

/-- Embedding of `publish_mqtt` (fumehood.py lines 237-275, identical in
water-2taps.py lines 212-242): attempts run from 1 to `retry_count`. -/
def publish_mqtt (outcomes : ℕ → Bool) (retry_count : ℕ) : PublishTrace :=
  publishGo outcomes retry_count (List.range' 1 retry_count)

/-- Default retry count of `publish_mqtt` (`retry_count: int = 3`). -/
def default_retry_count : ℕ := 3

/-- Events of the pulse integrator of water-2taps.py: a falling-edge pulse
detected by `countPulse`, or a one-second sampling tick of
`gpio_monitoring` (which reads and resets the shared counter and stores
the instantaneous rate). -/
inductive FlowEvent where
  | pulse
  | second
deriving DecidableEq, Repr

/-- State of the pulse integrator: the shared pulse counter `count` and
the per-second rate samples collected so far (the successive values of
`temp_volume_val` appended to `vol_arr` by `total_volume`). -/
structure FlowState where
  count : ℕ
  samples : List ℚ
deriving DecidableEq, Repr

/-- Embedding of the per-second rate conversion of `gpio_monitoring`
(water-2taps.py line 144): `vol = (1000 * current_count) / (FLOW_RATE_FACTOR * 60)`. -/
def flowRate (factor : ℚ) (pulses : ℕ) : ℚ :=
  (1000 * pulses) / (factor * 60)

/-- Runs the pulse integrator over an event trace: each pulse increments
the counter (`countPulse`, water-2taps.py lines 119-126); each one-second
tick atomically reads and resets the counter, converts the delta to a rate
and records the sample (`gpio_monitoring` lines 135-146 together with the
per-second collection loop of `total_volume` lines 192-196). -/
def flowRun (factor : ℚ) : FlowState → List FlowEvent → FlowState
  | s, [] => s
  | s, FlowEvent.pulse :: rest =>
    flowRun factor { s with count := s.count + 1 } rest
  | s, FlowEvent.second :: rest =>
    flowRun factor
      { count := 0, samples := s.samples ++ [flowRate factor s.count] } rest

/-- Embedding of `total_volume` (water-2taps.py lines 179-201): the
windowed total is `np.sum(vol_arr)`, the sum of the per-second rate
samples collected while the event trace unfolds. -/
def total_volume (factor : ℚ) (events : List FlowEvent) : ℚ :=
  (flowRun factor { count := 0, samples := [] } events).samples.sum

/-- Per-second pulse counts of an event trace: the number of pulses ahead
of each one-second sampling tick (pulses after the last tick are still in
the counter and belong to no completed second). -/
def secondCounts : List FlowEvent → ℕ → List ℕ
  | [], _ => []
  | FlowEvent.pulse :: rest, c => secondCounts rest (c + 1)
  | FlowEvent.second :: rest, c => c :: secondCounts rest 0

/-! ### Concrete scenario inputs -/

/-- Initial loop counters of `main` (all zero, lines 304-308). -/
def s0 : LoopState := { zeroDist := 0, zeroLight := 0, errors := 0 }

/-- An iteration with a degenerate distance reading and a healthy light
reading. -/
def zdTick : TickInput :=
  { dist := some 0, lux := some 100, recoverOk := false, publishOk := true }

/-- An iteration with both readings degenerate. -/
def zbTick : TickInput :=
  { dist := some 0, lux := some 0, recoverOk := false, publishOk := true }

/-- An iteration with a healthy distance reading and a degenerate light
reading, on which a recovery attempt would fail. -/
def lzTick : TickInput :=
  { dist := some 100, lux := some 0, recoverOk := false, publishOk := true }

/-- An iteration with both readings healthy. -/
def goodTick : TickInput :=
  { dist := some 100, lux := some 100, recoverOk := false, publishOk := true }

/-- An iteration with a degenerate distance reading and a healthy light
reading, on which a recovery attempt would succeed. -/
def recTick : TickInput :=
  { dist := some 0, lux := some 100, recoverOk := true, publishOk := true }

/-- Ten iterations of degenerate distance readings; the light readings are
degenerate from iteration 6 on, and the recovery attempt triggered by the
distance counter on iteration 10 succeeds. -/
def crossTrace : List TickInput :=
  List.replicate 5 zdTick ++ List.replicate 4 zbTick ++
    [{ dist := some 0, lux := some 0, recoverOk := true, publishOk := true }]

/-- Like `crossTrace` but the light reading of iteration 10 is healthy:
the light streak is exactly 4 = lightThreshold - 1 iterations long. -/
def crossTrace4 : List TickInput :=
  List.replicate 5 zdTick ++ List.replicate 4 zbTick ++ [recTick]

/-- Five iterations of degenerate light readings with healthy distance;
the light-triggered recovery attempt of iteration 5 fails. -/
def lightFailTrace : List TickInput := List.replicate 5 lzTick

/-- An iteration with a degenerate light reading whose publish attempt
fails. -/
def pubFailTick : TickInput :=
  { dist := some 100, lux := some 0, recoverOk := false, publishOk := false }

/-- Five iterations of `pubFailTick`: the publish-failure counter reaches
`max_consecutive_errors` on iteration 5, right after the failed
light-triggered recovery of that same iteration. -/
def pubFailTrace : List TickInput := List.replicate 5 pubFailTick

/-- Nine degenerate-distance iterations followed by one on which the
distance counter reaches its threshold and the recovery succeeds, with a
healthy light reading throughout. -/
def skipTrace : List TickInput := List.replicate 9 zdTick ++ [recTick]

/-- A 5-second window with all 600 pulses arriving in one burst during the
third second (`flow_rate_factor = 5` scenario of the spec). -/
def burstEvents : List FlowEvent :=
  FlowEvent.second :: FlowEvent.second ::
    (List.replicate 600 FlowEvent.pulse ++
      [FlowEvent.second, FlowEvent.second, FlowEvent.second])

/-! ### Basic facts about the phases of one iteration -/

lemma errCheck_snd (cfg : Config) (s : LoopState) (o : TickOutput) :
    (errCheck cfg s o).2 = o := by
  unfold errCheck; split <;> rfl

lemma errCheck_zeroDist (cfg : Config) (s : LoopState) (o : TickOutput) :
    (errCheck cfg s o).1.zeroDist = s.zeroDist := by
  unfold errCheck; split <;> rfl

lemma errCheck_zeroLight (cfg : Config) (s : LoopState) (o : TickOutput) :
    (errCheck cfg s o).1.zeroLight = s.zeroLight := by
  unfold errCheck; split <;> rfl

lemma publishPhase_out (cfg : Config) (s : LoopState) (i : TickInput)
    (rec : Option Fault) :
    (publishPhase cfg s i rec).2.recover = rec ∧
    (publishPhase cfg s i rec).2.reboot = false ∧
    (publishPhase cfg s i rec).2.broke = false ∧
    (publishPhase cfg s i rec).2.slept = true ∧
    (publishPhase cfg s i rec).2.validated = true := by
  unfold publishPhase
  split <;> simp [errCheck_snd]

lemma publishPhase_counters (cfg : Config) (s : LoopState) (i : TickInput)
    (rec : Option Fault) :
    (publishPhase cfg s i rec).1.zeroDist = s.zeroDist ∧
    (publishPhase cfg s i rec).1.zeroLight = s.zeroLight := by
  unfold publishPhase
  split <;> simp [errCheck_zeroDist, errCheck_zeroLight]

lemma lightPhase_out (cfg : Config) (s : LoopState) (i : TickInput) :
    (lightPhase cfg s i).2.recover ≠ some Fault.dist ∧
    (lightPhase cfg s i).2.reboot = false ∧
    (lightPhase cfg s i).2.broke = false := by
  unfold lightPhase
  split
  · split
    · split
      · simp
      · have h := publishPhase_out cfg { s with zeroLight := s.zeroLight + 1 } i
          (some Fault.light)
        simp [h.1, h.2.1, h.2.2.1]
    · have h := publishPhase_out cfg { s with zeroLight := s.zeroLight + 1 } i none
      simp [h.1, h.2.1, h.2.2.1]
  · have h := publishPhase_out cfg { s with zeroLight := 0 } i none
    simp [h.1, h.2.1, h.2.2.1]

lemma lightPhase_zeroDist (cfg : Config) (s : LoopState) (i : TickInput) :
    (lightPhase cfg s i).1.zeroDist = s.zeroDist := by
  unfold lightPhase
  split
  · split
    · split
      · rfl
      · exact (publishPhase_counters cfg _ i _).1
    · exact (publishPhase_counters cfg _ i _).1
  · exact (publishPhase_counters cfg _ i _).1

/-! ### Case lemmas for one full iteration -/

lemma tick_dist_low (cfg : Config) (s : LoopState) (i : TickInput)
    (hd : i.dist = some 0) (hlt : s.zeroDist + 1 < cfg.distThreshold) :
    tick cfg s i = lightPhase cfg { s with zeroDist := s.zeroDist + 1 } i := by
  unfold tick
  rw [if_pos hd, if_neg (by omega)]

lemma tick_dist_good (cfg : Config) (s : LoopState) (i : TickInput)
    (hd : i.dist ≠ some 0) :
    tick cfg s i = lightPhase cfg { s with zeroDist := 0 } i := by
  unfold tick
  rw [if_neg hd]

lemma tick_dist_trigger_ok (cfg : Config) (s : LoopState) (i : TickInput)
    (hd : i.dist = some 0) (hth : cfg.distThreshold ≤ s.zeroDist + 1)
    (hr : i.recoverOk = true) :
    tick cfg s i =
      ({ s with zeroDist := 0, errors := 0 },
       { recover := some Fault.dist, reboot := false, validated := false,
         msg := none, pubResult := none, slept := false, broke := false }) := by
  unfold tick
  rw [if_pos hd, if_pos hth, if_pos hr]

lemma tick_dist_trigger_fail (cfg : Config) (s : LoopState) (i : TickInput)
    (hd : i.dist = some 0) (hth : cfg.distThreshold ≤ s.zeroDist + 1)
    (hr : i.recoverOk = false) :
    tick cfg s i =
      ({ s with zeroDist := s.zeroDist + 1 },
       { recover := some Fault.dist, reboot := true, validated := false,
         msg := none, pubResult := none, slept := false, broke := true }) := by
  unfold tick
  rw [if_pos hd, if_pos hth, if_neg (by simp [hr])]

lemma lightPhase_low (cfg : Config) (s : LoopState) (i : TickInput)
    (hl : i.lux = some 0) (hlt : s.zeroLight + 1 < cfg.lightThreshold) :
    lightPhase cfg s i =
      publishPhase cfg { s with zeroLight := s.zeroLight + 1 } i none := by
  unfold lightPhase
  rw [if_pos hl, if_neg (by omega)]

lemma lightPhase_good (cfg : Config) (s : LoopState) (i : TickInput)
    (hl : i.lux ≠ some 0) :
    lightPhase cfg s i = publishPhase cfg { s with zeroLight := 0 } i none := by
  unfold lightPhase
  rw [if_neg hl]

lemma lightPhase_trigger_ok (cfg : Config) (s : LoopState) (i : TickInput)
    (hl : i.lux = some 0) (hth : cfg.lightThreshold ≤ s.zeroLight + 1)
    (hr : i.recoverOk = true) :
    lightPhase cfg s i =
      ({ s with zeroLight := 0, errors := 0 },
       { recover := some Fault.light, reboot := false, validated := false,
         msg := none, pubResult := none, slept := false, broke := false }) := by
  unfold lightPhase
  rw [if_pos hl, if_pos hth, if_pos hr]

lemma lightPhase_trigger_fail (cfg : Config) (s : LoopState) (i : TickInput)
    (hl : i.lux = some 0) (hth : cfg.lightThreshold ≤ s.zeroLight + 1)
    (hr : i.recoverOk = false) :
    lightPhase cfg s i =
      publishPhase cfg { s with zeroLight := s.zeroLight + 1 } i
        (some Fault.light) := by
  unfold lightPhase
  rw [if_pos hl, if_pos hth, if_neg (by simp [hr])]

lemma tick_light_low (cfg : Config) (s : LoopState) (i : TickInput)
    (hd : i.dist ≠ some 0) (hl : i.lux = some 0)
    (hlt : s.zeroLight + 1 < cfg.lightThreshold) :
    (tick cfg s i).1.zeroLight = s.zeroLight + 1 ∧
    (tick cfg s i).1.zeroDist = 0 ∧
    (tick cfg s i).2.recover = none ∧
    (tick cfg s i).2.reboot = false ∧
    (tick cfg s i).2.broke = false := by
  rw [tick_dist_good cfg s i hd,
    lightPhase_low cfg { s with zeroDist := 0 } i hl hlt]
  have ho := publishPhase_out cfg
    { s with zeroDist := 0, zeroLight := s.zeroLight + 1 } i none
  have hc := publishPhase_counters cfg
    { s with zeroDist := 0, zeroLight := s.zeroLight + 1 } i none
  exact ⟨hc.2, hc.1, ho.1, ho.2.1, ho.2.2.1⟩

lemma tick_light_good (cfg : Config) (s : LoopState) (i : TickInput)
    (hd : i.dist ≠ some 0) (hl : i.lux ≠ some 0) :
    (tick cfg s i).1.zeroLight = 0 ∧
    (tick cfg s i).1.zeroDist = 0 ∧
    (tick cfg s i).2.recover = none ∧
    (tick cfg s i).2.broke = false := by
  rw [tick_dist_good cfg s i hd, lightPhase_good cfg _ i hl]
  have ho := publishPhase_out cfg
    { s with zeroDist := 0, zeroLight := 0 } i none
  have hc := publishPhase_counters cfg
    { s with zeroDist := 0, zeroLight := 0 } i none
  exact ⟨hc.2, hc.1, ho.1, ho.2.2.1⟩

lemma tick_light_trigger_ok (cfg : Config) (s : LoopState) (i : TickInput)
    (hd : i.dist ≠ some 0) (hl : i.lux = some 0)
    (hth : cfg.lightThreshold ≤ s.zeroLight + 1) (hr : i.recoverOk = true) :
    tick cfg s i =
      ({ zeroDist := 0, zeroLight := 0, errors := 0 },
       { recover := some Fault.light, reboot := false, validated := false,
         msg := none, pubResult := none, slept := false, broke := false }) := by
  rw [tick_dist_good cfg s i hd,
    lightPhase_trigger_ok cfg { s with zeroDist := 0 } i hl hth hr]

/-! ### Facts about `run` -/

lemma run_nil (cfg : Config) (s : LoopState) : run cfg s [] = (s, []) := rfl

lemma run_cons (cfg : Config) (s : LoopState) (i : TickInput)
    (rest : List TickInput) :
    run cfg s (i :: rest) =
      if (tick cfg s i).2.broke then ((tick cfg s i).1, [(tick cfg s i).2])
      else ((run cfg (tick cfg s i).1 rest).1,
            (tick cfg s i).2 :: (run cfg (tick cfg s i).1 rest).2) := rfl

lemma run_cons_no_break (cfg : Config) (s : LoopState) (i : TickInput)
    (rest : List TickInput) (h : (tick cfg s i).2.broke = false) :
    run cfg s (i :: rest) =
      ((run cfg (tick cfg s i).1 rest).1,
       (tick cfg s i).2 :: (run cfg (tick cfg s i).1 rest).2) := by
  rw [run_cons, h]
  simp

/-- During a streak of zero-distance readings that stays strictly below the
distance threshold, the distance counter climbs one per tick, no
distance-triggered recovery is attempted, and the loop neither reboots nor
exits — whatever the light readings do. -/
lemma run_dist_low (cfg : Config) :
    ∀ (l : List TickInput) (s : LoopState),
      (∀ i ∈ l, i.dist = some 0) →
      s.zeroDist + l.length < cfg.distThreshold →
      (run cfg s l).1.zeroDist = s.zeroDist + l.length ∧
      (run cfg s l).2.length = l.length ∧
      (∀ o ∈ (run cfg s l).2,
        o.recover ≠ some Fault.dist ∧ o.broke = false ∧ o.reboot = false) := by
  intro l
  induction l with
  | nil => intro s _ _; simp [run_nil]
  | cons i rest ih =>
    intro s hall hlt
    have hd : i.dist = some 0 := hall i (by simp)
    have hlt1 : s.zeroDist + 1 < cfg.distThreshold := by
      simp only [List.length_cons] at hlt; omega
    have htick := tick_dist_low cfg s i hd hlt1
    have hout := lightPhase_out cfg { s with zeroDist := s.zeroDist + 1 } i
    have hzd := lightPhase_zeroDist cfg { s with zeroDist := s.zeroDist + 1 } i
    have hbroke : (tick cfg s i).2.broke = false := by rw [htick]; exact hout.2.2
    have hstate : (tick cfg s i).1.zeroDist = s.zeroDist + 1 := by
      rw [htick]; exact hzd
    have ihres := ih (tick cfg s i).1
      (fun j hj => hall j (by simp [hj]))
      (by rw [hstate]; simp only [List.length_cons] at hlt; omega)
    rw [run_cons_no_break cfg s i rest hbroke]
    refine ⟨?_, ?_, ?_⟩
    · simpa [hstate, Nat.add_assoc, Nat.add_comm 1 rest.length] using ihres.1
    · simp [ihres.2.1]
    · intro o ho
      rcases List.mem_cons.mp ho with h | h
      · subst h
        rw [htick]
        exact ⟨hout.1, hout.2.2, hout.2.1⟩
      · exact ihres.2.2 o h

/-- During a streak of zero-light readings that stays strictly below the
light threshold, on ticks whose distance reading is not degenerate, the
light counter climbs one per tick, no recovery is attempted, and the loop
neither reboots nor exits. -/
lemma run_light_low (cfg : Config) :
    ∀ (l : List TickInput) (s : LoopState),
      (∀ i ∈ l, i.dist ≠ some 0 ∧ i.lux = some 0) →
      s.zeroLight + l.length < cfg.lightThreshold →
      (run cfg s l).1.zeroLight = s.zeroLight + l.length ∧
      (run cfg s l).2.length = l.length ∧
      (∀ o ∈ (run cfg s l).2,
        o.recover = none ∧ o.broke = false ∧ o.reboot = false) := by
  intro l
  induction l with
  | nil => intro s _ _; simp [run_nil]
  | cons i rest ih =>
    intro s hall hlt
    have hd : i.dist ≠ some 0 := (hall i (by simp)).1
    have hl : i.lux = some 0 := (hall i (by simp)).2
    have hlt1 : s.zeroLight + 1 < cfg.lightThreshold := by
      simp only [List.length_cons] at hlt; omega
    have htick := tick_light_low cfg s i hd hl hlt1
    have ihres := ih (tick cfg s i).1
      (fun j hj => hall j (by simp [hj]))
      (by rw [htick.1]; simp only [List.length_cons] at hlt; omega)
    rw [run_cons_no_break cfg s i rest htick.2.2.2.2]
    refine ⟨?_, ?_, ?_⟩
    · simpa [htick.1, Nat.add_assoc, Nat.add_comm 1 rest.length] using ihres.1
    · simp [ihres.2.1]
    · intro o ho
      rcases List.mem_cons.mp ho with h | h
      · subst h
        exact ⟨htick.2.2.1, htick.2.2.2.2, htick.2.2.2.1⟩
      · exact ihres.2.2 o h

/-- A streak of zero-distance readings whose length brings the distance
counter exactly to the threshold triggers a distance recovery attempt
exactly once, on the last tick of the streak and never earlier; when that
attempt succeeds the distance counter is 0 again afterwards. -/
lemma run_dist_streak (cfg : Config) :
    ∀ (l : List TickInput) (s : LoopState), l ≠ [] →
      (∀ i ∈ l, i.dist = some 0) →
      s.zeroDist + l.length = cfg.distThreshold →
      ((run cfg s l).2.map fun o => decide (o.recover = some Fault.dist)) =
        List.replicate (l.length - 1) false ++ [true] ∧
      (∀ ilast, l.getLast? = some ilast → ilast.recoverOk = true →
        (run cfg s l).1.zeroDist = 0) := by
  intro l
  induction l with
  | nil => intro s h _ _; exact absurd rfl h
  | cons i rest ih =>
    intro s _ hall hlen
    have hd : i.dist = some 0 := hall i (by simp)
    cases rest with
    | nil =>
      have hth : cfg.distThreshold ≤ s.zeroDist + 1 := by
        simp only [List.length_cons, List.length_nil] at hlen; omega
      cases hr : i.recoverOk with
      | true =>
        rw [run_cons, tick_dist_trigger_ok cfg s i hd hth hr]
        simp [run_nil]
      | false =>
        rw [run_cons, tick_dist_trigger_fail cfg s i hd hth hr]
        simp [hr]
    | cons j t =>
      have hlt1 : s.zeroDist + 1 < cfg.distThreshold := by
        simp only [List.length_cons] at hlen; omega
      have htick := tick_dist_low cfg s i hd hlt1
      have hout := lightPhase_out cfg { s with zeroDist := s.zeroDist + 1 } i
      have hzd := lightPhase_zeroDist cfg { s with zeroDist := s.zeroDist + 1 } i
      have hbroke : (tick cfg s i).2.broke = false := by rw [htick]; exact hout.2.2
      have hstate : (tick cfg s i).1.zeroDist = s.zeroDist + 1 := by
        rw [htick]; exact hzd
      have ihres := ih (tick cfg s i).1
        (by simp)
        (fun x hx => hall x (by simp [hx]))
        (by rw [hstate]; simp only [List.length_cons] at hlen ⊢; omega)
      rw [run_cons_no_break cfg s i (j :: t) hbroke]
      constructor
      · have hne : (decide ((tick cfg s i).2.recover = some Fault.dist)) = false := by
          rw [htick]; simpa using hout.1
        simp only [List.map_cons, hne, ihres.1]
        have : (j :: t).length - 1 + 1 = (i :: j :: t).length - 1 := by
          simp
        rw [← this, List.replicate_succ]
        simp
      · intro ilast hlast hr
        have : (j :: t).getLast? = some ilast := by
          simpa [List.getLast?_cons_cons] using hlast
        exact ihres.2 ilast this hr

/-- A streak of zero-light readings (with no degenerate distance readings
on those ticks) whose length brings the light counter exactly to the
threshold triggers a light recovery attempt exactly once, on the last tick
of the streak and never earlier; when that attempt succeeds the light
counter is 0 again afterwards. -/
lemma run_light_streak (cfg : Config) :
    ∀ (l : List TickInput) (s : LoopState), l ≠ [] →
      (∀ i ∈ l, i.dist ≠ some 0 ∧ i.lux = some 0) →
      s.zeroLight + l.length = cfg.lightThreshold →
      ((run cfg s l).2.map fun o => decide (o.recover = some Fault.light)) =
        List.replicate (l.length - 1) false ++ [true] ∧
      (∀ ilast, l.getLast? = some ilast → ilast.recoverOk = true →
        (run cfg s l).1.zeroLight = 0) := by
  intro l
  induction l with
  | nil => intro s h _ _; exact absurd rfl h
  | cons i rest ih =>
    intro s _ hall hlen
    have hd : i.dist ≠ some 0 := (hall i (by simp)).1
    have hl : i.lux = some 0 := (hall i (by simp)).2
    cases rest with
    | nil =>
      have hth : cfg.lightThreshold ≤ s.zeroLight + 1 := by
        simp only [List.length_cons, List.length_nil] at hlen; omega
      cases hr : i.recoverOk with
      | true =>
        rw [run_cons, tick_light_trigger_ok cfg s i hd hl hth hr]
        simp [run_nil]
      | false =>
        have htick := tick_dist_good cfg s i hd
        have hfail := lightPhase_trigger_fail cfg { s with zeroDist := 0 } i hl hth hr
        have hpub := publishPhase_out cfg
          { s with zeroDist := 0, zeroLight := s.zeroLight + 1 } i
          (some Fault.light)
        rw [run_cons, htick, hfail]
        simp [run_nil, hpub.1, hpub.2.2.1, hr]
    | cons j t =>
      have hlt1 : s.zeroLight + 1 < cfg.lightThreshold := by
        simp only [List.length_cons] at hlen; omega
      have htick := tick_light_low cfg s i hd hl hlt1
      have ihres := ih (tick cfg s i).1
        (by simp)
        (fun x hx => hall x (by simp [hx]))
        (by rw [htick.1]; simp only [List.length_cons] at hlen ⊢; omega)
      rw [run_cons_no_break cfg s i (j :: t) htick.2.2.2.2]
      constructor
      · have hne : (decide ((tick cfg s i).2.recover = some Fault.light)) = false := by
          simp [htick.2.2.1]
        simp only [List.map_cons, hne, ihres.1]
        have : (j :: t).length - 1 + 1 = (i :: j :: t).length - 1 := by
          simp
        rw [← this, List.replicate_succ]
        simp
      · intro ilast hlast hr
        have : (j :: t).getLast? = some ilast := by
          simpa [List.getLast?_cons_cons] using hlast
        exact ihres.2 ilast this hr

/-! ### Inversion lemmas: which branches can produce which actions -/

/-- The only way an iteration reboots: a zero-distance reading brought the
distance counter to the threshold and `recover_sensors` failed. -/
lemma tick_reboot_inv (cfg : Config) (s : LoopState) (i : TickInput)
    (h : (tick cfg s i).2.reboot = true) :
    i.dist = some 0 ∧ cfg.distThreshold ≤ s.zeroDist + 1 ∧
      i.recoverOk = false ∧ (tick cfg s i).2.broke = true ∧
      (tick cfg s i).2.pubResult = none := by
  by_cases hd : i.dist = some 0
  · by_cases hth : cfg.distThreshold ≤ s.zeroDist + 1
    · cases hr : i.recoverOk with
      | true =>
        rw [tick_dist_trigger_ok cfg s i hd hth hr] at h
        simp at h
      | false =>
        rw [tick_dist_trigger_fail cfg s i hd hth hr]
        exact ⟨hd, hth, rfl, rfl, rfl⟩
    · have := tick_dist_low cfg s i hd (by omega)
      rw [this] at h
      exact absurd h (by simp [(lightPhase_out cfg _ i).2.1])
  · have := tick_dist_good cfg s i hd
    rw [this] at h
    exact absurd h (by simp [(lightPhase_out cfg _ i).2.1])

/-- The only way an iteration attempts a distance-triggered recovery: a
zero-distance reading brought the counter to the threshold; on success the
counter is reset, on failure the device reboots and the loop exits. -/
lemma tick_dist_recover_inv (cfg : Config) (s : LoopState) (i : TickInput)
    (h : (tick cfg s i).2.recover = some Fault.dist) :
    i.dist = some 0 ∧ cfg.distThreshold ≤ s.zeroDist + 1 ∧
      (i.recoverOk = true →
        (tick cfg s i).1.zeroDist = 0 ∧ (tick cfg s i).2.reboot = false) ∧
      (i.recoverOk = false →
        (tick cfg s i).2.reboot = true ∧ (tick cfg s i).2.broke = true) := by
  by_cases hd : i.dist = some 0
  · by_cases hth : cfg.distThreshold ≤ s.zeroDist + 1
    · refine ⟨hd, hth, ?_, ?_⟩
      · intro hr
        rw [tick_dist_trigger_ok cfg s i hd hth hr]
        exact ⟨rfl, rfl⟩
      · intro hr
        rw [tick_dist_trigger_fail cfg s i hd hth hr]
        exact ⟨rfl, rfl⟩
    · rw [tick_dist_low cfg s i hd (by omega)] at h
      exact absurd h (lightPhase_out cfg _ i).1
  · rw [tick_dist_good cfg s i hd] at h
    exact absurd h (lightPhase_out cfg _ i).1

/-- Behaviour of the light phase when it attempts a recovery: the lux
reading was `0.0` and the counter hit the threshold; on success the light
counter is reset, on failure the iteration merely logs and proceeds —
no reboot, no loop exit. -/
lemma lightPhase_recover_inv (cfg : Config) (s : LoopState) (i : TickInput)
    (h : (lightPhase cfg s i).2.recover = some Fault.light) :
    i.lux = some 0 ∧ cfg.lightThreshold ≤ s.zeroLight + 1 ∧
      (i.recoverOk = true → (lightPhase cfg s i).1.zeroLight = 0) ∧
      (i.recoverOk = false →
        (lightPhase cfg s i).2.reboot = false ∧
        (lightPhase cfg s i).2.broke = false ∧
        (lightPhase cfg s i).2.validated = true) := by
  by_cases hl : i.lux = some 0
  · by_cases hth : cfg.lightThreshold ≤ s.zeroLight + 1
    · refine ⟨hl, hth, ?_, ?_⟩
      · intro hr
        rw [lightPhase_trigger_ok cfg s i hl hth hr]
      · intro hr
        rw [lightPhase_trigger_fail cfg s i hl hth hr]
        have hp := publishPhase_out cfg { s with zeroLight := s.zeroLight + 1 } i
          (some Fault.light)
        exact ⟨hp.2.1, hp.2.2.1, hp.2.2.2.2⟩
    · rw [lightPhase_low cfg s i hl (by omega)] at h
      exact absurd h (by simp [(publishPhase_out cfg _ i none).1])
  · rw [lightPhase_good cfg s i hl] at h
    exact absurd h (by simp [(publishPhase_out cfg _ i none).1])

/-- Lift of `lightPhase_recover_inv` to a whole iteration. -/
lemma tick_light_recover_inv (cfg : Config) (s : LoopState) (i : TickInput)
    (h : (tick cfg s i).2.recover = some Fault.light) :
    i.lux = some 0 ∧
      (i.recoverOk = true → (tick cfg s i).1.zeroLight = 0) ∧
      (i.recoverOk = false →
        (tick cfg s i).2.reboot = false ∧
        (tick cfg s i).2.broke = false ∧
        (tick cfg s i).2.validated = true) := by
  by_cases hd : i.dist = some 0
  · by_cases hth : cfg.distThreshold ≤ s.zeroDist + 1
    · cases hr : i.recoverOk with
      | true => rw [tick_dist_trigger_ok cfg s i hd hth hr] at h; simp at h
      | false => rw [tick_dist_trigger_fail cfg s i hd hth hr] at h; simp at h
    · have heq := tick_dist_low cfg s i hd (by omega)
      rw [heq] at h ⊢
      have := lightPhase_recover_inv cfg { s with zeroDist := s.zeroDist + 1 } i h
      exact ⟨this.1, this.2.2.1, this.2.2.2⟩
  · have heq := tick_dist_good cfg s i hd
    rw [heq] at h ⊢
    have := lightPhase_recover_inv cfg { s with zeroDist := 0 } i h
    exact ⟨this.1, this.2.2.1, this.2.2.2⟩

/-- Light-phase version of `tick_recover_ok_inv`: a successful recovery
attempted by the light phase abandons the rest of the iteration. -/
lemma lightPhase_recover_ok_inv (cfg : Config) (s : LoopState) (i : TickInput)
    (f : Fault) (h : (lightPhase cfg s i).2.recover = some f)
    (hr : i.recoverOk = true) :
    (lightPhase cfg s i).2.validated = false ∧
      (lightPhase cfg s i).2.msg = none ∧
      (lightPhase cfg s i).2.pubResult = none ∧
      (lightPhase cfg s i).2.slept = false ∧
      (lightPhase cfg s i).2.broke = false ∧
      (lightPhase cfg s i).2.reboot = false := by
  by_cases hl : i.lux = some 0
  · by_cases hth : cfg.lightThreshold ≤ s.zeroLight + 1
    · rw [lightPhase_trigger_ok cfg s i hl hth hr]
      exact ⟨rfl, rfl, rfl, rfl, rfl, rfl⟩
    · rw [lightPhase_low cfg s i hl (by omega)] at h
      exact absurd h (by simp [(publishPhase_out cfg _ i none).1])
  · rw [lightPhase_good cfg s i hl] at h
    exact absurd h (by simp [(publishPhase_out cfg _ i none).1])

/-- When an iteration attempts a recovery that succeeds, the whole rest of
the iteration is abandoned: nothing is validated, no message is built, no
publish is attempted, the measurement sleep is skipped, and the loop
continues. -/
lemma tick_recover_ok_inv (cfg : Config) (s : LoopState) (i : TickInput)
    (f : Fault) (h : (tick cfg s i).2.recover = some f)
    (hr : i.recoverOk = true) :
    (tick cfg s i).2.validated = false ∧ (tick cfg s i).2.msg = none ∧
      (tick cfg s i).2.pubResult = none ∧ (tick cfg s i).2.slept = false ∧
      (tick cfg s i).2.broke = false ∧ (tick cfg s i).2.reboot = false := by
  by_cases hd : i.dist = some 0
  · by_cases hth : cfg.distThreshold ≤ s.zeroDist + 1
    · rw [tick_dist_trigger_ok cfg s i hd hth hr]
      exact ⟨rfl, rfl, rfl, rfl, rfl, rfl⟩
    · rw [tick_dist_low cfg s i hd (by omega)] at h ⊢
      exact lightPhase_recover_ok_inv cfg _ i f h hr
  · rw [tick_dist_good cfg s i hd] at h ⊢
    exact lightPhase_recover_ok_inv cfg _ i f h hr

/-! ### Publish and validation characterizations -/

lemma errCheck_errors (cfg : Config) (s : LoopState) (o : TickOutput) :
    (errCheck cfg s o).1.errors =
      if cfg.maxErrors ≤ s.errors then 0 else s.errors := by
  unfold errCheck; split <;> simp_all

/-- Message construction: when at least one reading is valid, the payload
carries the reading for each valid metric and the sentinel `-1.0` for each
invalid one, and a publish is attempted; with no valid reading nothing is
built or published. -/
lemma publishPhase_msg (cfg : Config) (s : LoopState) (i : TickInput)
    (rec : Option Fault) :
    ((validate_distance cfg i.dist || validate_light cfg i.lux) = true →
      (publishPhase cfg s i rec).2.msg = some
        { distance := if validate_distance cfg i.dist then i.dist.getD 0 else -1,
          light := if validate_light cfg i.lux then i.lux.getD 0 else -1,
          airflow := 0 } ∧
      (publishPhase cfg s i rec).2.pubResult = some i.publishOk) ∧
    ((validate_distance cfg i.dist || validate_light cfg i.lux) = false →
      (publishPhase cfg s i rec).2.msg = none ∧
      (publishPhase cfg s i rec).2.pubResult = none) := by
  constructor
  · intro hv
    unfold publishPhase
    rw [if_pos hv, errCheck_snd]
    exact ⟨rfl, rfl⟩
  · intro hv
    unfold publishPhase
    rw [if_neg (by simp [hv]), errCheck_snd]
    exact ⟨rfl, rfl⟩

/-- On a publish-fail iteration the error counter either increments or,
having reached `max_consecutive_errors`, is logged and reset to 0. -/
lemma publishPhase_pubfail (cfg : Config) (s : LoopState) (i : TickInput)
    (rec : Option Fault)
    (h : (publishPhase cfg s i rec).2.pubResult = some false) :
    (publishPhase cfg s i rec).1.errors =
      if cfg.maxErrors ≤ s.errors + 1 then 0 else s.errors + 1 := by
  by_cases hv : (validate_distance cfg i.dist || validate_light cfg i.lux) = true
  · unfold publishPhase at h ⊢
    rw [if_pos hv, errCheck_snd] at h
    have hp : i.publishOk = false := by simpa using h
    rw [if_pos hv, hp]
    have := errCheck_errors cfg { s with errors := s.errors + 1 }
      { recover := rec, reboot := false, validated := true,
        msg := some
          { distance := if validate_distance cfg i.dist then i.dist.getD 0 else -1,
            light := if validate_light cfg i.lux then i.lux.getD 0 else -1,
            airflow := 0 },
        pubResult := some false, slept := true, broke := false }
    simpa using this
  · unfold publishPhase at h
    rw [if_neg hv, errCheck_snd] at h
    simp at h

/-- An iteration whose publish attempt fails does not reboot, does not
leave the loop, and its error counter increments — or resets to 0 when the
incremented value reaches `max_consecutive_errors`. No other action is
taken on a publish-failure threshold crossing. -/
lemma tick_pubfail_inv (cfg : Config) (s : LoopState) (i : TickInput)
    (h : (tick cfg s i).2.pubResult = some false) :
    (tick cfg s i).2.reboot = false ∧ (tick cfg s i).2.broke = false ∧
      (tick cfg s i).1.errors =
        if cfg.maxErrors ≤ s.errors + 1 then 0 else s.errors + 1 := by
  have main : ∀ (s' : LoopState), s'.errors = s.errors →
      (lightPhase cfg s' i).2.pubResult = some false →
      (lightPhase cfg s' i).2.reboot = false ∧
      (lightPhase cfg s' i).2.broke = false ∧
      (lightPhase cfg s' i).1.errors =
        if cfg.maxErrors ≤ s.errors + 1 then 0 else s.errors + 1 := by
    intro s' hse h'
    by_cases hl : i.lux = some 0
    · by_cases hth : cfg.lightThreshold ≤ s'.zeroLight + 1
      · cases hr : i.recoverOk with
        | true => rw [lightPhase_trigger_ok cfg s' i hl hth hr] at h'; simp at h'
        | false =>
          rw [lightPhase_trigger_fail cfg s' i hl hth hr] at h' ⊢
          have hp := publishPhase_out cfg { s' with zeroLight := s'.zeroLight + 1 }
            i (some Fault.light)
          refine ⟨hp.2.1, hp.2.2.1, ?_⟩
          have := publishPhase_pubfail cfg { s' with zeroLight := s'.zeroLight + 1 }
            i (some Fault.light) h'
          simpa [hse] using this
      · rw [lightPhase_low cfg s' i hl (by omega)] at h' ⊢
        have hp := publishPhase_out cfg { s' with zeroLight := s'.zeroLight + 1 } i none
        refine ⟨hp.2.1, hp.2.2.1, ?_⟩
        have := publishPhase_pubfail cfg { s' with zeroLight := s'.zeroLight + 1 }
          i none h'
        simpa [hse] using this
    · rw [lightPhase_good cfg s' i hl] at h' ⊢
      have hp := publishPhase_out cfg { s' with zeroLight := 0 } i none
      refine ⟨hp.2.1, hp.2.2.1, ?_⟩
      have := publishPhase_pubfail cfg { s' with zeroLight := 0 } i none h'
      simpa [hse] using this
  by_cases hd : i.dist = some 0
  · by_cases hth : cfg.distThreshold ≤ s.zeroDist + 1
    · cases hr : i.recoverOk with
      | true => rw [tick_dist_trigger_ok cfg s i hd hth hr] at h; simp at h
      | false => rw [tick_dist_trigger_fail cfg s i hd hth hr] at h; simp at h
    · rw [tick_dist_low cfg s i hd (by omega)] at h ⊢
      exact main { s with zeroDist := s.zeroDist + 1 } rfl h
  · rw [tick_dist_good cfg s i hd] at h ⊢
    exact main { s with zeroDist := 0 } rfl h

/-- An iteration that reaches the validation step builds and publishes
exactly when at least one reading is valid, with `-1.0` sentinels for the
invalid metrics, and runs the measurement sleep. -/
lemma tick_validated_inv (cfg : Config) (s : LoopState) (i : TickInput)
    (h : (tick cfg s i).2.validated = true) :
    ((validate_distance cfg i.dist || validate_light cfg i.lux) = true →
      (tick cfg s i).2.msg = some
        { distance := if validate_distance cfg i.dist then i.dist.getD 0 else -1,
          light := if validate_light cfg i.lux then i.lux.getD 0 else -1,
          airflow := 0 } ∧
      (tick cfg s i).2.pubResult = some i.publishOk) ∧
    ((validate_distance cfg i.dist || validate_light cfg i.lux) = false →
      (tick cfg s i).2.msg = none ∧ (tick cfg s i).2.pubResult = none) ∧
    (tick cfg s i).2.slept = true := by
  have main : ∀ (s' : LoopState),
      (lightPhase cfg s' i).2.validated = true →
      ((validate_distance cfg i.dist || validate_light cfg i.lux) = true →
        (lightPhase cfg s' i).2.msg = some
          { distance := if validate_distance cfg i.dist then i.dist.getD 0 else -1,
            light := if validate_light cfg i.lux then i.lux.getD 0 else -1,
            airflow := 0 } ∧
        (lightPhase cfg s' i).2.pubResult = some i.publishOk) ∧
      ((validate_distance cfg i.dist || validate_light cfg i.lux) = false →
        (lightPhase cfg s' i).2.msg = none ∧
        (lightPhase cfg s' i).2.pubResult = none) ∧
      (lightPhase cfg s' i).2.slept = true := by
    intro s' h'
    by_cases hl : i.lux = some 0
    · by_cases hth : cfg.lightThreshold ≤ s'.zeroLight + 1
      · cases hr : i.recoverOk with
        | true => rw [lightPhase_trigger_ok cfg s' i hl hth hr] at h'; simp at h'
        | false =>
          rw [lightPhase_trigger_fail cfg s' i hl hth hr]
          have hm := publishPhase_msg cfg { s' with zeroLight := s'.zeroLight + 1 }
            i (some Fault.light)
          have hp := publishPhase_out cfg { s' with zeroLight := s'.zeroLight + 1 }
            i (some Fault.light)
          exact ⟨hm.1, hm.2, hp.2.2.2.1⟩
      · rw [lightPhase_low cfg s' i hl (by omega)]
        have hm := publishPhase_msg cfg { s' with zeroLight := s'.zeroLight + 1 } i none
        have hp := publishPhase_out cfg { s' with zeroLight := s'.zeroLight + 1 } i none
        exact ⟨hm.1, hm.2, hp.2.2.2.1⟩
    · rw [lightPhase_good cfg s' i hl]
      have hm := publishPhase_msg cfg { s' with zeroLight := 0 } i none
      have hp := publishPhase_out cfg { s' with zeroLight := 0 } i none
      exact ⟨hm.1, hm.2, hp.2.2.2.1⟩
  by_cases hd : i.dist = some 0
  · by_cases hth : cfg.distThreshold ≤ s.zeroDist + 1
    · cases hr : i.recoverOk with
      | true => rw [tick_dist_trigger_ok cfg s i hd hth hr] at h; simp at h
      | false => rw [tick_dist_trigger_fail cfg s i hd hth hr] at h; simp at h
    · rw [tick_dist_low cfg s i hd (by omega)] at h ⊢
      exact main { s with zeroDist := s.zeroDist + 1 } h
  · rw [tick_dist_good cfg s i hd] at h ⊢
    exact main { s with zeroDist := 0 } h

/-- An iteration that does not reach the validation step builds no message
and attempts no publish. -/
lemma tick_not_validated (cfg : Config) (s : LoopState) (i : TickInput)
    (h : (tick cfg s i).2.validated = false) :
    (tick cfg s i).2.msg = none ∧ (tick cfg s i).2.pubResult = none := by
  have main : ∀ (s' : LoopState),
      (lightPhase cfg s' i).2.validated = false →
      (lightPhase cfg s' i).2.msg = none ∧
      (lightPhase cfg s' i).2.pubResult = none := by
    intro s' h'
    by_cases hl : i.lux = some 0
    · by_cases hth : cfg.lightThreshold ≤ s'.zeroLight + 1
      · cases hr : i.recoverOk with
        | true => rw [lightPhase_trigger_ok cfg s' i hl hth hr]; exact ⟨rfl, rfl⟩
        | false =>
          rw [lightPhase_trigger_fail cfg s' i hl hth hr] at h'
          have hp := publishPhase_out cfg { s' with zeroLight := s'.zeroLight + 1 }
            i (some Fault.light)
          rw [hp.2.2.2.2] at h'
          cases h'
      · rw [lightPhase_low cfg s' i hl (by omega)] at h'
        have hp := publishPhase_out cfg { s' with zeroLight := s'.zeroLight + 1 } i none
        rw [hp.2.2.2.2] at h'
        cases h'
    · rw [lightPhase_good cfg s' i hl] at h'
      have hp := publishPhase_out cfg { s' with zeroLight := 0 } i none
      rw [hp.2.2.2.2] at h'
      cases h'
  by_cases hd : i.dist = some 0
  · by_cases hth : cfg.distThreshold ≤ s.zeroDist + 1
    · cases hr : i.recoverOk with
      | true => rw [tick_dist_trigger_ok cfg s i hd hth hr]; exact ⟨rfl, rfl⟩
      | false => rw [tick_dist_trigger_fail cfg s i hd hth hr]; exact ⟨rfl, rfl⟩
    · rw [tick_dist_low cfg s i hd (by omega)] at h ⊢
      exact main { s with zeroDist := s.zeroDist + 1 } h
  · rw [tick_dist_good cfg s i hd] at h ⊢
    exact main { s with zeroDist := 0 } h

/-- A run over inputs none of which carries a degenerate distance reading
never reboots: the light fault class alone cannot cause a reboot. -/
lemma run_no_zero_dist_no_reboot (cfg : Config) :
    ∀ (l : List TickInput) (s : LoopState),
      (∀ i ∈ l, i.dist ≠ some 0) →
      ∀ o ∈ (run cfg s l).2, o.reboot = false := by
  intro l
  induction l with
  | nil => intro s _ o ho; simp [run_nil] at ho
  | cons i rest ih =>
    intro s hall o ho
    have hd : i.dist ≠ some 0 := hall i (by simp)
    have heq := tick_dist_good cfg s i hd
    have hout := lightPhase_out cfg { s with zeroDist := 0 } i
    have hbroke : (tick cfg s i).2.broke = false := by rw [heq]; exact hout.2.2
    rw [run_cons_no_break cfg s i rest hbroke] at ho
    rcases List.mem_cons.mp ho with h | h
    · subst h; rw [heq]; exact hout.2.1
    · exact ih (tick cfg s i).1 (fun j hj => hall j (by simp [hj])) o h

/-- An iteration on which the light counter reaches its threshold (and the
distance branch does not interfere) attempts a light-triggered recovery
and, whatever its outcome, neither reboots nor leaves the loop. -/
lemma tick_light_trigger (cfg : Config) (s : LoopState) (i : TickInput)
    (hd : i.dist ≠ some 0) (hl : i.lux = some 0)
    (hth : cfg.lightThreshold ≤ s.zeroLight + 1) :
    (tick cfg s i).2.recover = some Fault.light ∧
      (tick cfg s i).2.reboot = false ∧ (tick cfg s i).2.broke = false := by
  cases hr : i.recoverOk with
  | true =>
    rw [tick_light_trigger_ok cfg s i hd hl hth hr]
    exact ⟨rfl, rfl, rfl⟩
  | false =>
    rw [tick_dist_good cfg s i hd,
      lightPhase_trigger_fail cfg { s with zeroDist := 0 } i hl hth hr]
    have hp := publishPhase_out cfg
      { s with zeroDist := 0, zeroLight := s.zeroLight + 1 } i
      (some Fault.light)
    exact ⟨hp.1, hp.2.1, hp.2.2.1⟩

/-- Runs compose over append as long as the first part never leaves the
loop. -/
lemma run_append (cfg : Config) :
    ∀ (l1 l2 : List TickInput) (s : LoopState),
      (∀ o ∈ (run cfg s l1).2, o.broke = false) →
      run cfg s (l1 ++ l2) =
        ((run cfg (run cfg s l1).1 l2).1,
         (run cfg s l1).2 ++ (run cfg (run cfg s l1).1 l2).2) := by
  intro l1
  induction l1 with
  | nil => intro l2 s _; simp [run_nil]
  | cons i rest ih =>
    intro l2 s hnb
    have hmem : (tick cfg s i).2 ∈ (run cfg s (i :: rest)).2 := by
      rw [run_cons]; split <;> simp
    have hbroke := hnb _ hmem
    rw [run_cons_no_break cfg s i rest hbroke] at hnb
    rw [List.cons_append, run_cons_no_break cfg s i (rest ++ l2) hbroke,
      run_cons_no_break cfg s i rest hbroke]
    have ihres := ih l2 (tick cfg s i).1 (fun o ho => hnb o (by simp [ho]))
    rw [ihres]
    simp

/-! ### Retry behaviour of `publish_mqtt` -/

lemma publishGo_length (outcomes : ℕ → Bool) (rc : ℕ) :
    ∀ l : List ℕ, (publishGo outcomes rc l).attempts.length ≤ l.length := by
  intro l
  induction l with
  | nil => simp [publishGo]
  | cons a rest ih =>
    unfold publishGo
    split
    · simp
    · simpa using Nat.succ_le_succ ih

/-- When every delivery in the covered attempt range fails, the retry loop
makes every attempt, sleeps 2 seconds after each but the last, and reports
failure. -/
lemma publishGo_all_fail (outcomes : ℕ → Bool) (rc : ℕ) :
    ∀ (n a : ℕ), a + n = rc + 1 →
      (∀ j, a ≤ j → j < a + n → outcomes j = false) →
      publishGo outcomes rc (List.range' a n) =
        { ok := false, attempts := List.range' a n,
          sleeps := List.replicate (n - 1) 2 } := by
  intro n
  induction n with
  | zero => intro a _ _; simp [publishGo]
  | succ m ih =>
    intro a hcov hfail
    rw [List.range'_succ]
    unfold publishGo
    rw [hfail a (Nat.le_refl a) (by omega)]
    simp only [Bool.false_eq_true, if_false]
    rw [ih (a + 1) (by omega) (fun j h1 h2 => hfail j (by omega) (by omega))]
    cases m with
    | zero =>
      have : ¬ a < rc := by omega
      simp [this]
    | succ m' =>
      have : a < rc := by omega
      simp only [this, if_true]
      rw [← List.range'_succ]
      simp [List.replicate_succ]

/-- When the first successful delivery is attempt `k` inside the covered
range, the retry loop stops at attempt `k`: it makes attempts `a..k`,
sleeps 2 seconds between consecutive attempts, and reports success. -/
lemma publishGo_success (outcomes : ℕ → Bool) (rc k : ℕ)
    (hk : outcomes k = true) (hkrc : k ≤ rc) :
    ∀ (n a : ℕ), a ≤ k → k < a + n →
      (∀ j, a ≤ j → j < k → outcomes j = false) →
      publishGo outcomes rc (List.range' a n) =
        { ok := true, attempts := List.range' a (k - a + 1),
          sleeps := List.replicate (k - a) 2 } := by
  intro n
  induction n with
  | zero => intro a h1 h2 _; omega
  | succ m ih =>
    intro a ha hk2 hfail
    rw [List.range'_succ]
    unfold publishGo
    by_cases hak : a = k
    · subst hak
      rw [hk]
      simp
    · have haf : outcomes a = false := hfail a (Nat.le_refl a) (by omega)
      rw [haf]
      simp only [Bool.false_eq_true, if_false]
      rw [ih (a + 1) (by omega) (by omega)
        (fun j h1 h2 => hfail j (by omega) h2)]
      have halt : a < rc := by omega
      simp only [halt, if_true]
      have h1 : a :: List.range' (a + 1) (k - (a + 1) + 1) =
          List.range' a (k - a + 1) := by
        have : k - a + 1 = (k - (a + 1) + 1) + 1 := by omega
        rw [this]
        simp [List.range'_succ]
      have h2 : (2 : ℕ) :: List.replicate (k - (a + 1)) 2 =
          List.replicate (k - a) 2 := by
        have : k - a = (k - (a + 1)) + 1 := by omega
        rw [this, List.replicate_succ]
      simp [h1, h2]

/-! ### The pulse integrator of water-2taps.py -/

/-- The samples collected by the integrator over an event trace are the
per-second pulse counts converted by the rate formula, in order. -/
lemma flowRun_samples (factor : ℚ) :
    ∀ (events : List FlowEvent) (s : FlowState),
      (flowRun factor s events).samples =
        s.samples ++ (secondCounts events s.count).map
          (fun c => flowRate factor c) := by
  intro events
  induction events with
  | nil => intro s; simp [flowRun, secondCounts]
  | cons e rest ih =>
    intro s
    cases e with
    | pulse => simpa [flowRun, secondCounts] using ih { s with count := s.count + 1 }
    | second =>
      have := ih { count := 0, samples := s.samples ++ [flowRate factor s.count] }
      simp only [flowRun, secondCounts, this, List.map_cons, List.append_assoc,
        List.singleton_append]

/-- Pulses arriving in one burst between two sampling ticks all land in the
count of the second in which they arrived. -/
lemma secondCounts_replicate_pulse :
    ∀ (n c : ℕ) (rest : List FlowEvent),
      secondCounts (List.replicate n FlowEvent.pulse ++ rest) c =
        secondCounts rest (c + n) := by
  intro n
  induction n with
  | zero => intro c rest; simp [secondCounts]
  | succ m ih =>
    intro c rest
    simp only [List.replicate_succ, List.cons_append, secondCounts,
      List.append_eq]
    rw [ih (c + 1) rest]
    congr 1
    omega

/-! ### Claims -/

/-- Claim C1 counterexample. In `crossTrace` the light readings of
iterations 6-10 are `0.0` for exactly `lightThreshold = 5` consecutive
iterations (iteration 5 had a healthy light reading), yet no
light-triggered recovery is ever attempted — the light counter only
reaches 4 because the successful distance-triggered recovery of iteration
10 abandons that iteration (`continue`) before the light branch runs. So
the Exceeded transition of the light fault class never fires on a streak
of exactly `threshold` degenerate readings, refuting the claim as
stated. -/
theorem c1_counterexample :
    (List.map (fun i => i.lux) (List.drop 5 crossTrace) =
      List.replicate 5 (some (0 : ℚ))) ∧
    defaultConfig.lightThreshold = 5 ∧
    ((run defaultConfig s0 crossTrace).2.map
      fun o => decide (o.recover = some Fault.light)) =
        List.replicate 10 false ∧
    (run defaultConfig s0 crossTrace).1.zeroLight = 4 ∧
    (run defaultConfig s0 crossTrace).2.length = 10 := by
  decide

/-- Claim C1 (amended): starting with the class counter at 0, a streak of
exactly `threshold` consecutive degenerate readings of the distance class
emits its Exceeded transition (a `recover_sensors` invocation) exactly
once, on the streak's final tick and never earlier; when that recovery
succeeds the counter is 0 again, so each subsequent full streak invokes it
exactly once more. The same holds for the light class provided the
distance reading is not degenerate on any tick of the streak — the
counterexample shows the proviso is necessary, since a successful
distance-triggered recovery skips the light branch of its iteration. -/
theorem c1_streak_recovery_amended :
    (∀ (cfg : Config) (s : LoopState) (l : List TickInput), l ≠ [] →
      (∀ i ∈ l, i.dist = some 0) →
      s.zeroDist + l.length = cfg.distThreshold →
      ((run cfg s l).2.map fun o => decide (o.recover = some Fault.dist)) =
        List.replicate (l.length - 1) false ++ [true] ∧
      (∀ ilast, l.getLast? = some ilast → ilast.recoverOk = true →
        (run cfg s l).1.zeroDist = 0)) ∧
    (∀ (cfg : Config) (s : LoopState) (l : List TickInput), l ≠ [] →
      (∀ i ∈ l, i.dist ≠ some 0 ∧ i.lux = some 0) →
      s.zeroLight + l.length = cfg.lightThreshold →
      ((run cfg s l).2.map fun o => decide (o.recover = some Fault.light)) =
        List.replicate (l.length - 1) false ++ [true] ∧
      (∀ ilast, l.getLast? = some ilast → ilast.recoverOk = true →
        (run cfg s l).1.zeroLight = 0)) :=
  ⟨fun cfg s l h1 h2 h3 => run_dist_streak cfg l s h1 h2 h3,
   fun cfg s l h1 h2 h3 => run_light_streak cfg l s h1 h2 h3⟩

/-- Witness for the amended claim C1 at the default configuration: a
streak of exactly ten degenerate distance readings triggers the distance
recovery exactly once, on iteration 10, and the successful recovery leaves
the counter at 0. -/
theorem c1_streak_recovery_amended_witness :
    ((run defaultConfig s0 skipTrace).2.map
      fun o => decide (o.recover = some Fault.dist)) =
        List.replicate 9 false ++ [true] ∧
    (run defaultConfig s0 skipTrace).1.zeroDist = 0 := by
  have h := c1_streak_recovery_amended.1 defaultConfig s0 skipTrace
    (by decide) (by decide) (by decide)
  exact ⟨by simpa using h.1, h.2 recTick (by decide) (by decide)⟩

/-- Claim C2 counterexample. In `lightFailTrace` the light counter reaches
its threshold on iteration 5, a soft recovery is attempted and fails
(`recoverOk = false`), yet no hard recovery is triggered before the next
tick — no iteration reboots or leaves the loop. The code only logs the
failed light-triggered recovery, refuting "soft recovery failure always
triggers hard recovery before the next tick". -/
theorem c2_counterexample :
    ((run defaultConfig s0 lightFailTrace).2.map
      fun o => (o.recover, o.reboot, o.broke)) =
        [(none, false, false), (none, false, false), (none, false, false),
         (none, false, false), (some Fault.light, false, false)] ∧
    lzTick.recoverOk = false ∧
    (run defaultConfig s0 lightFailTrace).2.length = 5 := by
  decide

/-- Claim C2 (amended): on every tick where a soft recovery is attempted,
a successful recovery resets the triggering fault class's counter to 0
before the next tick; a failed distance-triggered recovery triggers the
hard recovery (reboot) before the next tick, while a failed
light-triggered recovery does not reboot — the iteration merely logs the
failure and proceeds. -/
theorem c2_recovery_outcome_amended :
    (∀ (cfg : Config) (s : LoopState) (i : TickInput),
      (tick cfg s i).2.recover = some Fault.dist →
      (i.recoverOk = true → (tick cfg s i).1.zeroDist = 0) ∧
      (i.recoverOk = false → (tick cfg s i).2.reboot = true)) ∧
    (∀ (cfg : Config) (s : LoopState) (i : TickInput),
      (tick cfg s i).2.recover = some Fault.light →
      (i.recoverOk = true → (tick cfg s i).1.zeroLight = 0) ∧
      (i.recoverOk = false →
        (tick cfg s i).2.reboot = false ∧ (tick cfg s i).2.broke = false)) := by
  constructor
  · intro cfg s i h
    have hh := tick_dist_recover_inv cfg s i h
    exact ⟨fun hr => (hh.2.2.1 hr).1, fun hr => (hh.2.2.2 hr).1⟩
  · intro cfg s i h
    have hh := tick_light_recover_inv cfg s i h
    exact ⟨hh.2.1, fun hr => ⟨(hh.2.2 hr).1, (hh.2.2 hr).2.1⟩⟩

/-- Witness for the amended claim C2: a successful distance-triggered
recovery at the threshold resets the distance counter, and a failed
light-triggered recovery at the threshold reboots nothing. -/
theorem c2_recovery_outcome_amended_witness :
    (tick defaultConfig { zeroDist := 9, zeroLight := 0, errors := 0 }
      recTick).1.zeroDist = 0 ∧
    (tick defaultConfig { zeroDist := 0, zeroLight := 4, errors := 0 }
      lzTick).2.reboot = false := by
  constructor
  · exact (c2_recovery_outcome_amended.1 defaultConfig
      { zeroDist := 9, zeroLight := 0, errors := 0 } recTick (by decide)).1
      (by decide)
  · exact ((c2_recovery_outcome_amended.2 defaultConfig
      { zeroDist := 0, zeroLight := 4, errors := 0 } lzTick (by decide)).2
      (by decide)).1

/-- Claim C3: exceeding the degenerate-light threshold never causes a
device reboot — in any execution a reboot can only come from a tick whose
distance reading is `0.0` at the distance threshold with a failed
recovery; a run whose inputs never carry a degenerate distance reading
never reboots, no matter what the light readings do; a light-threshold
tick attempts only a soft recovery with no reboot; and a distance
threshold tick with failed soft recovery does reboot. -/
theorem c3_light_never_reboots :
    (∀ (cfg : Config) (s : LoopState) (i : TickInput),
      (tick cfg s i).2.reboot = true →
      i.dist = some 0 ∧ cfg.distThreshold ≤ s.zeroDist + 1 ∧
        i.recoverOk = false) ∧
    (∀ (cfg : Config) (s : LoopState) (l : List TickInput),
      (∀ i ∈ l, i.dist ≠ some 0) →
      ∀ o ∈ (run cfg s l).2, o.reboot = false) ∧
    (∀ (cfg : Config) (s : LoopState) (i : TickInput),
      i.dist ≠ some 0 → i.lux = some 0 →
      cfg.lightThreshold ≤ s.zeroLight + 1 →
      (tick cfg s i).2.recover = some Fault.light ∧
        (tick cfg s i).2.reboot = false) ∧
    (∀ (cfg : Config) (s : LoopState) (i : TickInput),
      i.dist = some 0 → cfg.distThreshold ≤ s.zeroDist + 1 →
      i.recoverOk = false → (tick cfg s i).2.reboot = true) := by
  refine ⟨?_, fun cfg s l => run_no_zero_dist_no_reboot cfg l s, ?_, ?_⟩
  · intro cfg s i h
    have hh := tick_reboot_inv cfg s i h
    exact ⟨hh.1, hh.2.1, hh.2.2.1⟩
  · intro cfg s i hd hl hth
    have hh := tick_light_trigger cfg s i hd hl hth
    exact ⟨hh.1, hh.2.1⟩
  · intro cfg s i hd hth hr
    rw [tick_dist_trigger_fail cfg s i hd hth hr]

/-- Witness for claim C3: a light-threshold tick with failed recovery
attempts a soft recovery without rebooting; a distance-threshold tick with
failed recovery reboots; and no tick of a degenerate-light-only run
reboots. -/
theorem c3_light_never_reboots_witness :
    ((tick defaultConfig { zeroDist := 0, zeroLight := 4, errors := 0 }
        lzTick).2.recover = some Fault.light ∧
      (tick defaultConfig { zeroDist := 0, zeroLight := 4, errors := 0 }
        lzTick).2.reboot = false) ∧
    (tick defaultConfig { zeroDist := 9, zeroLight := 0, errors := 0 }
      zdTick).2.reboot = true ∧
    (∀ o ∈ (run defaultConfig s0 lightFailTrace).2, o.reboot = false) := by
  refine ⟨?_, ?_, ?_⟩
  · exact c3_light_never_reboots.2.2.1 defaultConfig
      { zeroDist := 0, zeroLight := 4, errors := 0 } lzTick
      (by decide) (by decide) (by decide)
  · exact c3_light_never_reboots.2.2.2 defaultConfig
      { zeroDist := 9, zeroLight := 0, errors := 0 } zdTick
      (by decide) (by decide) (by decide)
  · exact c3_light_never_reboots.2.1 defaultConfig s0 lightFailTrace
      (by decide)

/-- Claim C4 counterexample. In `crossTrace4` the light readings of
iterations 6-9 are `0.0` for exactly `lightThreshold - 1 = 4` consecutive
iterations, followed by a healthy light reading on iteration 10 — yet the
light counter does not return to 0 on that iteration: it stays at 4,
because the successful distance-triggered recovery of iteration 10
abandons the iteration before the light-reset branch runs. This refutes
"its consecutive count returns to 0 on the non-degenerate tick". -/
theorem c4_counterexample :
    (List.map (fun i => i.lux) (List.drop 5 crossTrace4) =
      List.replicate 4 (some (0 : ℚ)) ++ [some 100]) ∧
    defaultConfig.lightThreshold - 1 = 4 ∧
    (run defaultConfig s0 crossTrace4).1.zeroLight = 4 ∧
    (run defaultConfig s0 crossTrace4).2.length = 10 := by
  decide

/-- Claim C4 (amended): starting with the class counter at 0, a streak of
exactly `threshold - 1` consecutive degenerate readings followed by one
non-degenerate reading never triggers that class's recovery, and the
counter is 0 again after the non-degenerate tick. This holds
unconditionally for the distance class, and for the light class provided
the distance reading is degenerate on none of those ticks — the
counterexample shows the proviso is necessary. -/
theorem c4_cleared_streak_amended :
    (∀ (cfg : Config) (s : LoopState) (l : List TickInput) (g : TickInput),
      s.zeroDist = 0 → l.length + 1 = cfg.distThreshold →
      (∀ i ∈ l, i.dist = some 0) → g.dist ≠ some 0 →
      (∀ o ∈ (run cfg s (l ++ [g])).2, o.recover ≠ some Fault.dist) ∧
      (run cfg s (l ++ [g])).1.zeroDist = 0) ∧
    (∀ (cfg : Config) (s : LoopState) (l : List TickInput) (g : TickInput),
      s.zeroLight = 0 → l.length + 1 = cfg.lightThreshold →
      (∀ i ∈ l, i.dist ≠ some 0 ∧ i.lux = some 0) →
      g.dist ≠ some 0 → g.lux ≠ some 0 →
      (∀ o ∈ (run cfg s (l ++ [g])).2, o.recover ≠ some Fault.light) ∧
      (run cfg s (l ++ [g])).1.zeroLight = 0) := by
  constructor
  · intro cfg s l g hs hlen hall hg
    have hlow := run_dist_low cfg l s hall (by omega)
    have happ := run_append cfg l [g] s (fun o ho => (hlow.2.2 o ho).2.1)
    set s1 := (run cfg s l).1 with hs1
    have hgtick := tick_dist_good cfg s1 g hg
    have hout := lightPhase_out cfg { s1 with zeroDist := 0 } g
    have hzd := lightPhase_zeroDist cfg { s1 with zeroDist := 0 } g
    have hbroke : (tick cfg s1 g).2.broke = false := by
      rw [hgtick]; exact hout.2.2
    have hrg : run cfg s1 [g] =
        ((tick cfg s1 g).1, [(tick cfg s1 g).2]) := by
      rw [run_cons, hbroke]
      simp [run_nil]
    rw [happ, hrg]
    constructor
    · intro o ho
      rcases List.mem_append.mp ho with h | h
      · exact (hlow.2.2 o h).1
      · have : o = (tick cfg s1 g).2 := by simpa using h
        subst this
        rw [hgtick]
        exact hout.1
    · show (tick cfg s1 g).1.zeroDist = 0
      rw [hgtick, hzd]
  · intro cfg s l g hs hlen hall hgd hgl
    have hlow := run_light_low cfg l s hall (by omega)
    have happ := run_append cfg l [g] s (fun o ho => (hlow.2.2 o ho).2.1)
    set s1 := (run cfg s l).1 with hs1
    have hgtick := tick_light_good cfg s1 g hgd hgl
    have hrg : run cfg s1 [g] =
        ((tick cfg s1 g).1, [(tick cfg s1 g).2]) := by
      rw [run_cons, hgtick.2.2.2]
      simp [run_nil]
    rw [happ, hrg]
    constructor
    · intro o ho
      rcases List.mem_append.mp ho with h | h
      · rw [(hlow.2.2 o h).1]
        simp
      · have : o = (tick cfg s1 g).2 := by simpa using h
        subst this
        rw [hgtick.2.2.1]
        simp
    · exact hgtick.1

/-- Witness for the amended claim C4 at the default configuration: nine
degenerate distance readings followed by a healthy one never trigger the
distance recovery and leave the counter at 0; four degenerate light
readings followed by a healthy one never trigger the light recovery and
leave the counter at 0. -/
theorem c4_cleared_streak_amended_witness :
    ((∀ o ∈ (run defaultConfig s0
        (List.replicate 9 zdTick ++ [goodTick])).2,
        o.recover ≠ some Fault.dist) ∧
      (run defaultConfig s0
        (List.replicate 9 zdTick ++ [goodTick])).1.zeroDist = 0) ∧
    ((∀ o ∈ (run defaultConfig s0
        (List.replicate 4 lzTick ++ [goodTick])).2,
        o.recover ≠ some Fault.light) ∧
      (run defaultConfig s0
        (List.replicate 4 lzTick ++ [goodTick])).1.zeroLight = 0) := by
  constructor
  · exact c4_cleared_streak_amended.1 defaultConfig s0
      (List.replicate 9 zdTick) goodTick (by decide) (by decide)
      (by decide) (by decide)
  · exact c4_cleared_streak_amended.2 defaultConfig s0
      (List.replicate 4 lzTick) goodTick (by decide) (by decide)
      (by decide) (by decide) (by decide)

/-- Claim C5 counterexample. In `pubFailTrace` a soft recovery is
attempted and fails on iteration 5 (light-triggered, `recoverOk = false`),
and on that same iteration the publish-failure counter reaches
`max_consecutive_errors = 5` (the fifth consecutive publish failure) — yet
no reboot is invoked anywhere: the loop merely logs and resets the
counter to 0. This refutes the claimed reboot for a publish-failure
threshold crossing after a failed soft recovery. -/
theorem c5_counterexample :
    ((run defaultConfig s0 pubFailTrace).2.map
      fun o => (o.recover, o.reboot, o.pubResult)) =
        [(none, false, some false), (none, false, some false),
         (none, false, some false), (none, false, some false),
         (some Fault.light, false, some false)] ∧
    pubFailTick.recoverOk = false ∧
    defaultConfig.maxErrors = 5 ∧
    (run defaultConfig s0 pubFailTrace).1.errors = 0 ∧
    (∀ o ∈ (run defaultConfig s0 pubFailTrace).2, o.broke = false) := by
  decide

/-- Claim C5 (amended): an iteration whose publish attempt fails never
reboots and never leaves the loop, regardless of any earlier failed soft
recovery; its publish-failure counter increments, or — when the
incremented value reaches `max_consecutive_errors` — is logged and reset
to 0. Crossing the publish-failure threshold has no other effect. -/
theorem c5_publish_failure_amended :
    ∀ (cfg : Config) (s : LoopState) (i : TickInput),
      (tick cfg s i).2.pubResult = some false →
      (tick cfg s i).2.reboot = false ∧ (tick cfg s i).2.broke = false ∧
        (tick cfg s i).1.errors =
          if cfg.maxErrors ≤ s.errors + 1 then 0 else s.errors + 1 :=
  fun cfg s i h => tick_pubfail_inv cfg s i h

/-- Witness for the amended claim C5: a failed publish on an iteration
whose error counter stood at 4 crosses the threshold of 5 and the counter
is reset to 0, with no reboot. -/
theorem c5_publish_failure_amended_witness :
    (tick defaultConfig { zeroDist := 0, zeroLight := 0, errors := 4 }
      pubFailTick).2.reboot = false ∧
    (tick defaultConfig { zeroDist := 0, zeroLight := 0, errors := 4 }
      pubFailTick).1.errors =
        if defaultConfig.maxErrors ≤ 4 + 1 then 0 else 4 + 1 := by
  have h := c5_publish_failure_amended defaultConfig
    { zeroDist := 0, zeroLight := 0, errors := 4 } pubFailTick (by decide)
  exact ⟨h.1, h.2.2⟩

/-- Claim C6: for every message, `publish_mqtt` makes at most
`retry_count` delivery attempts (default 3), sleeps a fixed 2 seconds
between consecutive attempts, stops at the first success reporting
success, and after exhausting all attempts reports failure to the caller;
a failed publish never makes the loop exit. -/
theorem c6_publish_retry :
    (∀ (outcomes : ℕ → Bool) (rc : ℕ),
      (publish_mqtt outcomes rc).attempts.length ≤ rc) ∧
    (∀ (outcomes : ℕ → Bool) (rc k : ℕ), 1 ≤ k → k ≤ rc →
      outcomes k = true → (∀ j, 1 ≤ j → j < k → outcomes j = false) →
      publish_mqtt outcomes rc =
        { ok := true, attempts := List.range' 1 k,
          sleeps := List.replicate (k - 1) 2 }) ∧
    (∀ (outcomes : ℕ → Bool) (rc : ℕ), 1 ≤ rc →
      (∀ j, 1 ≤ j → j ≤ rc → outcomes j = false) →
      publish_mqtt outcomes rc =
        { ok := false, attempts := List.range' 1 rc,
          sleeps := List.replicate (rc - 1) 2 }) ∧
    default_retry_count = 3 ∧
    (∀ (cfg : Config) (s : LoopState) (i : TickInput),
      (tick cfg s i).2.pubResult = some false →
      (tick cfg s i).2.broke = false) := by
  refine ⟨?_, ?_, ?_, rfl, ?_⟩
  · intro outcomes rc
    have h := publishGo_length outcomes rc (List.range' 1 rc)
    simpa using h
  · intro outcomes rc k h1 h2 h3 h4
    have h := publishGo_success outcomes rc k h3 h2 rc 1 h1 (by omega)
      (fun j hj1 hj2 => h4 j hj1 hj2)
    rw [publish_mqtt, h]
    have : k - 1 + 1 = k := by omega
    rw [this]
  · intro outcomes rc h1 h2
    have h := publishGo_all_fail outcomes rc rc 1 (by omega)
      (fun j hj1 hj2 => h2 j hj1 (by omega))
    rw [publish_mqtt, h]
  · intro cfg s i h
    exact (tick_pubfail_inv cfg s i h).2.1

/-- Witness for claim C6 (scenario of §8 of the spec): deliveries failing
on attempts 1 and 2 and succeeding on attempt 3 with `retry_count = 3`
yield success after exactly the three attempts with two 2-second sleeps;
deliveries always failing yield failure after three attempts. -/
theorem c6_publish_retry_witness :
    publish_mqtt (fun n => decide (n = 3)) 3 =
      { ok := true, attempts := [1, 2, 3], sleeps := [2, 2] } ∧
    publish_mqtt (fun _ => false) 3 =
      { ok := false, attempts := [1, 2, 3], sleeps := [2, 2] } ∧
    (publish_mqtt (fun _ => false) 3).attempts.length ≤ 3 := by
  refine ⟨?_, ?_, ?_⟩
  · have h := c6_publish_retry.2.1 (fun n => decide (n = 3)) 3 3
      (by decide) (by decide) (by decide)
      (fun j h1 h2 => by simp only [decide_eq_false_iff_not]; omega)
    rw [h]; decide
  · have h := c6_publish_retry.2.2.1 (fun _ => false) 3 (by decide)
      (fun j _ _ => rfl)
    rw [h]; decide
  · exact c6_publish_retry.1 (fun _ => false) 3

/-- Claim C7: the windowed total of the pulse integrator equals the sum of
the per-second instantaneous-rate samples, each computed as
`rate = 1000 * pulses / (flow_factor * 60)`, for every distribution of the
pulses over the window; in particular per-second counts `[0,0,600,0,0]`
(all 600 pulses in one burst during the third second) with
`flow_rate_factor = 5` yield a window total of 2000. -/
theorem c7_windowed_total :
    (∀ (factor : ℚ) (events : List FlowEvent),
      total_volume factor events =
        ((secondCounts events 0).map fun c => flowRate factor c).sum) ∧
    secondCounts burstEvents 0 = [0, 0, 600, 0, 0] ∧
    total_volume 5 burstEvents = 2000 := by
  have hgen : ∀ (factor : ℚ) (events : List FlowEvent),
      total_volume factor events =
        ((secondCounts events 0).map fun c => flowRate factor c).sum := by
    intro factor events
    unfold total_volume
    rw [flowRun_samples factor events { count := 0, samples := [] }]
    simp
  have hstep : ∀ (rest : List FlowEvent) (c : ℕ),
      secondCounts (FlowEvent.second :: rest) c = c :: secondCounts rest 0 :=
    fun _ _ => rfl
  have hsc : secondCounts burstEvents 0 = [0, 0, 600, 0, 0] := by
    unfold burstEvents
    rw [hstep, hstep, secondCounts_replicate_pulse 600 0, hstep, hstep, hstep,
      show secondCounts [] 0 = [] from rfl]
  refine ⟨hgen, hsc, ?_⟩
  rw [hgen 5 burstEvents, hsc]
  norm_num [flowRate]

/-- Claim C8 counterexample. On iteration 10 of `skipTrace` both readings
are valid — the `0.0` mm distance passes the range check with the default
minimum 0, and 100 lux is in range — yet no message is built and no
publish attempted: the successful distance-triggered recovery abandons the
iteration before validation. This refutes "on every tick where at least
one sensor reading is valid, the Supervisor builds and publishes a
Message". -/
theorem c8_counterexample :
    validate_distance defaultConfig (some 0) = true ∧
    validate_light defaultConfig (some 100) = true ∧
    ((run defaultConfig s0 skipTrace).2.map
      fun o => (o.msg, o.pubResult, o.validated)).getLast? =
        some (none, none, false) ∧
    (run defaultConfig s0 skipTrace).2.length = 10 := by
  decide

/-- Claim C8 (amended): on every tick that reaches the validation step
(equivalently, that is not cut short by a successful recovery or a
reboot), if at least one reading is valid a message is built carrying the
sentinel `-1.0` for each invalid metric and a publish is attempted, and if
no reading is valid nothing is published; a tick that does not reach the
validation step builds and publishes nothing even if its readings are
valid. -/
theorem c8_publish_sentinel_amended :
    (∀ (cfg : Config) (s : LoopState) (i : TickInput),
      (tick cfg s i).2.validated = true →
      ((validate_distance cfg i.dist || validate_light cfg i.lux) = true →
        (tick cfg s i).2.msg = some
          { distance := if validate_distance cfg i.dist then i.dist.getD 0 else -1,
            light := if validate_light cfg i.lux then i.lux.getD 0 else -1,
            airflow := 0 } ∧
        (tick cfg s i).2.pubResult = some i.publishOk) ∧
      ((validate_distance cfg i.dist || validate_light cfg i.lux) = false →
        (tick cfg s i).2.msg = none ∧ (tick cfg s i).2.pubResult = none)) ∧
    (∀ (cfg : Config) (s : LoopState) (i : TickInput),
      (tick cfg s i).2.validated = false →
      (tick cfg s i).2.msg = none ∧ (tick cfg s i).2.pubResult = none) := by
  constructor
  · intro cfg s i h
    exact ⟨(tick_validated_inv cfg s i h).1, (tick_validated_inv cfg s i h).2.1⟩
  · intro cfg s i h
    exact tick_not_validated cfg s i h

/-- Witness for the amended claim C8: an iteration with an out-of-range
distance reading (5000 mm > 4000 mm) and a valid light reading publishes a
message carrying the sentinel `-1.0` for the distance metric and the lux
value for the light metric. -/
theorem c8_publish_sentinel_amended_witness :
    (tick defaultConfig s0
      { dist := some 5000, lux := some 100, recoverOk := false,
        publishOk := true }).2.msg =
      some { distance := -1, light := 100, airflow := 0 } := by
  have h := (c8_publish_sentinel_amended.1 defaultConfig s0
    { dist := some 5000, lux := some 100, recoverOk := false,
      publishOk := true } (by decide)).1 (by decide)
  rw [h.1]
  decide

/-- Claim C9: `validate_distance` and `validate_light` are pure functions
of the reading and the configured bounds — two calls with the same input
return the same boolean; a reading equal to the degenerate sentinel `0.0`
with the default minimum bound 0 passes the range check, while the same
tick separately counts it as a degenerate occurrence by incrementing the
consecutive-zero counter. -/
theorem c9_validate_pure_degenerate :
    (∀ (cfg : Config) (r : Option ℚ),
      validate_distance cfg r = validate_distance cfg r ∧
      validate_light cfg r = validate_light cfg r) ∧
    (∀ (cfg : Config), cfg.distMin = 0 → 0 ≤ cfg.distMax →
      validate_distance cfg (some 0) = true) ∧
    (∀ (cfg : Config) (s : LoopState) (i : TickInput),
      i.dist = some 0 → s.zeroDist + 1 < cfg.distThreshold →
      (tick cfg s i).1.zeroDist = s.zeroDist + 1) := by
  refine ⟨fun cfg r => ⟨rfl, rfl⟩, ?_, ?_⟩
  · intro cfg h0 hmax
    unfold validate_distance
    simp only [h0, Bool.not_eq_true']
    rw [Bool.or_eq_false_iff]
    constructor
    · simp
    · simpa using not_lt.mpr hmax
  · intro cfg s i hd hlt
    rw [tick_dist_low cfg s i hd hlt]
    exact lightPhase_zeroDist cfg { s with zeroDist := s.zeroDist + 1 } i

/-- Witness for claim C9 at the default bounds: the degenerate reading
`0.0` mm is valid, and the iteration that reads it counts it toward the
distance fault class. -/
theorem c9_validate_pure_degenerate_witness :
    validate_distance defaultConfig (some 0) = true ∧
    (tick defaultConfig s0 zdTick).1.zeroDist = 0 + 1 := by
  refine ⟨?_, ?_⟩
  · exact c9_validate_pure_degenerate.2.1 defaultConfig rfl (by decide)
  · exact c9_validate_pure_degenerate.2.2 defaultConfig s0 zdTick
      (by decide) (by decide)

/-- Claim C10: on every tick where a soft recovery is attempted and
succeeds — whichever fault class triggered it — the Supervisor abandons
the remainder of the tick: the readings are not validated, no message is
built, no publish is attempted, the measurement-interval sleep is skipped
(the next iteration starts immediately), and the loop continues. -/
theorem c10_recovery_abandons_tick :
    ∀ (cfg : Config) (s : LoopState) (i : TickInput) (f : Fault),
      (tick cfg s i).2.recover = some f → i.recoverOk = true →
      (tick cfg s i).2.validated = false ∧ (tick cfg s i).2.msg = none ∧
        (tick cfg s i).2.pubResult = none ∧ (tick cfg s i).2.slept = false ∧
        (tick cfg s i).2.broke = false := by
  intro cfg s i f h hr
  have hh := tick_recover_ok_inv cfg s i f h hr
  exact ⟨hh.1, hh.2.1, hh.2.2.1, hh.2.2.2.1, hh.2.2.2.2.1⟩

/-- Witness for claim C10: the successful distance-triggered recovery of
an iteration at the threshold skips validation, publish and the sleep. -/
theorem c10_recovery_abandons_tick_witness :
    (tick defaultConfig { zeroDist := 9, zeroLight := 0, errors := 0 }
      recTick).2.validated = false ∧
    (tick defaultConfig { zeroDist := 9, zeroLight := 0, errors := 0 }
      recTick).2.slept = false := by
  have h := c10_recovery_abandons_tick defaultConfig
    { zeroDist := 9, zeroLight := 0, errors := 0 } recTick Fault.dist
    (by decide) (by decide)
  exact ⟨h.1, h.2.2.2.1⟩

end Labsense
